import Mathlib

/-!
Verification of the ChatConnect-Dashboard AI backend route layer.

Shallow embedding of `src/ai-backend/src/api/routes.py`,
`src/ai-backend/src/api/main.py`, `src/ai-backend/src/models/requests.py`
and `src/ai-backend/src/models/responses.py`. Python strings are modelled
as Lean `String` (lists of code points, matching Python `str` indexing and
`len`), request handlers as pure functions, HTTP failures as `Except`
errors, and the SSE generator as the list of events it yields.
-/

namespace ChatConnect

/-- Model of a raised `HTTPException(status_code=..., detail=...)`, and of
framework-level request rejections, carrying the HTTP status code. -/
structure HTTPError where
  status_code : Nat
  detail : String
deriving DecidableEq

/-- Model of the mock client-configuration dict returned by
`validate_api_key` in `routes.py` (lines 43-48). -/
structure ClientConfig where
  client_id : String
  tier : String
  model : String
  system_prompt : Option String
deriving DecidableEq

/-- The fixed mock tenant configuration returned by `validate_api_key`. -/
def mock_client_config : ClientConfig :=
  { client_id := "mock_client_123"
  , tier := "free"
  , model := "gpt-4o-mini"
  , system_prompt := none }

/-- Python `s.startswith(p)`: `p` is a prefix of `s`, by code points. -/
def py_startswith (s p : String) : Bool := p.data.isPrefixOf s.data

/-- Body of `validate_api_key` (`routes.py` lines 32-48): the guard is
`if not x_api_key or not x_api_key.startswith("pk_")`, where `not x` on a
Python `str` is truth-testing, i.e. the empty string. -/
def validate_api_key (x_api_key : String) : Except HTTPError ClientConfig :=
  if x_api_key = "" || !(py_startswith x_api_key "pk_") then
    Except.error { status_code := 401, detail := "Invalid API key" }
  else
    Except.ok mock_client_config

/-- Modelled from FastAPI request validation: a required parameter
(`Header(...)` with no default, or a bare required query parameter) that is
absent from the request is rejected with HTTP 422 (pydantic v2 message
"Field required") before any dependency or handler body runs. -/
def missing_field_error : HTTPError :=
  { status_code := 422, detail := "Field required" }

/-- The full external API-key gate at the HTTP level: the header
`x-api-key` is declared as `Header(...)` (required), so an absent header is
rejected by request validation with 422; a present value is passed to
`validate_api_key`. -/
def api_key_dependency : Option String → Except HTTPError ClientConfig
  | none => Except.error missing_field_error
  | some k => validate_api_key k

/-- Body of `validate_internal_secret` (`routes.py` lines 51-60): the header
is optional (`Header(None, ...)`), so an absent header reaches the body as
`none`; the body raises 401 unless the value equals the configured
`settings.internal_api_secret` (always a `str`). -/
def validate_internal_secret (x_internal_secret : Option String)
    (internal_api_secret : String) : Except HTTPError Bool :=
  if x_internal_secret ≠ some internal_api_secret then
    Except.error { status_code := 401, detail := "Invalid internal secret" }
  else
    Except.ok true

/-- Python `s[:n]`: the first `n` code points of `s`. -/
def py_take (s : String) (n : Nat) : String := String.mk (s.data.take n)

/-- Character class of the `ChatRequest.session_id` pattern
`^[a-f0-9-]{36}$` (`requests.py` line 14). -/
def is_session_id_char (c : Char) : Bool :=
  (decide ('a' ≤ c) && decide (c ≤ 'f'))
    || (decide ('0' ≤ c) && decide (c ≤ '9'))
    || c == '-'

/-- The anchored pattern `^[a-f0-9-]{36}$`: exactly 36 characters, each in
the class. -/
def session_id_matches (s : String) : Bool :=
  s.length == 36 && s.data.all is_session_id_char

/-- Pydantic validation of a `ChatRequest` body (`requests.py` lines 10-15):
`message` is required with `min_length=1, max_length=2000`, `session_id` is
required and must match the pattern. `none` models a missing field. -/
def chat_request_valid : Option String → Option String → Bool
  | some message, some session_id =>
      decide (1 ≤ message.length) && decide (message.length ≤ 2000)
        && session_id_matches session_id
  | _, _ => false

/-- `ChatSource` from `responses.py`. -/
structure ChatSource where
  document_id : String
  title : String
  excerpt : String
  score : Float

/-- `ChatResponse` from `responses.py`; `sources` is `list | None = None`. -/
structure ChatResponse where
  response : String
  session_id : String
  sources : Option (List ChatSource)
  trace_id : String

/-- The mock `response_text` built in the `chat` handler
(`routes.py` lines 99-107). -/
def mock_chat_response_text (message tier model : String) : String :=
  "This is a mock response. Your message was: \x27" ++ py_take message 50
    ++ "...\x27\n\n"
    ++ "Client tier: " ++ tier ++ "\n"
    ++ "Model: " ++ model ++ "\n\n"
    ++ "The actual implementation will:\n"
    ++ "1. Search your knowledge base for relevant context\n"
    ++ "2. Generate a response using the appropriate LLM\n"
    ++ "3. Return sources for the information provided"

/-- Body of the non-streaming `chat` handler (`routes.py` lines 67-130) on
its success path. `trace_id` stands for `str(uuid.uuid4())`, which is
always a 36-character string; the mock body is total, so the `except`
branch is never taken and the handler returns HTTP 200 with this value. -/
def chat (message session_id : String) (client_config : ClientConfig)
    (trace_id : String) : ChatResponse :=
  { response := mock_chat_response_text message client_config.tier client_config.model
  , session_id := session_id
  , sources := some []
  , trace_id := trace_id }

/-- The `status` literal enumeration of `DocumentStatusResponse`. -/
inductive DocStatus where
  | pending
  | parsing
  | chunking
  | embedding
  | completed
  | failed
deriving DecidableEq

/-- `DocumentStatusResponse` from `responses.py`. -/
structure DocumentStatusResponse where
  document_id : String
  status : DocStatus
  progress : Int
  current_step : Option String
  chunks_total : Option Int
  chunks_processed : Option Int
  error_message : Option String
deriving DecidableEq

/-- Body of `get_document_status` (`routes.py` lines 252-267). -/
def get_document_status (document_id : String) : DocumentStatusResponse :=
  { document_id := document_id
  , status := DocStatus.completed
  , progress := 100
  , current_step := none
  , chunks_total := some 10
  , chunks_processed := some 10
  , error_message := none }

/-- The dict returned by `validate_client` (`routes.py` lines 286-298);
`none` models an absent key. -/
structure ValidateClientResult where
  valid : Bool
  error_message : Option String
  client_id : Option String
  tier : Option String
  model : Option String
  allowed_domains : Option (List String)
deriving DecidableEq

/-- Body of `validate_client` (`routes.py` lines 274-298): the guard is
`if not api_key or not api_key.startswith("pk_")`; both branches return a
normal value (no exception is raised here). -/
def validate_client (api_key : String) : ValidateClientResult :=
  if api_key = "" || !(py_startswith api_key "pk_") then
    { valid := false
    , error_message := some "Invalid API key format"
    , client_id := none, tier := none, model := none, allowed_domains := none }
  else
    { valid := true
    , error_message := none
    , client_id := some "mock_client_123"
    , tier := some "free"
    , model := some "gpt-4o-mini"
    , allowed_domains := some ["*"] }

/-- The `validate-client` endpoint at the HTTP level: `api_key` is a bare
required parameter (a required query parameter in FastAPI), so an absent
value is rejected with 422 before the handler runs; a present value reaches
the handler body, which always returns normally (HTTP 200). -/
def validate_client_endpoint : Option String → Except HTTPError ValidateClientResult
  | none => Except.error missing_field_error
  | some api_key => Except.ok (validate_client api_key)

/-- HTTP status code of a failed dependency or endpoint result, `none` when
it succeeded. -/
def status_of {α : Type} : Except HTTPError α → Option Nat
  | Except.error e => some e.status_code
  | Except.ok _ => none

/-- Minimal model of an HTTP response as seen by the logging middleware:
a status code and its header list. -/
structure Response where
  status_code : Nat
  headers : List (String × String)

/-- `request.headers.get("X-Request-ID", f"req_{int(start_time * 1000)}")`
in `main.py` line 94: the inbound header value when present (even if
empty), else a time-derived identifier. -/
def request_id_of (inbound_request_id : Option String) (start_ms : Nat) : String :=
  match inbound_request_id with
  | some v => v
  | none => "req_" ++ toString start_ms

/-- `response.headers["X-Request-ID"] = request_id`: starlette header
assignment removes existing entries for the name and appends the new one. -/
def set_header (name value : String) (headers : List (String × String)) :
    List (String × String) :=
  headers.filter (fun p => !(p.1 == name)) ++ [(name, value)]

/-- First header value for a name, if any. -/
def get_header (name : String) (headers : List (String × String)) : Option String :=
  (headers.find? (fun p => p.1 == name)).map Prod.snd

/-- The `log_requests` middleware (`main.py` lines 88-118) as a function of
the inbound `X-Request-ID` header, the request start time in milliseconds,
and the response produced by the rest of the application (every response,
including ones produced by the validation and exception handlers, passes
back through this middleware, which sets the `X-Request-ID` header). -/
def log_requests (inbound_request_id : Option String) (start_ms : Nat)
    (response : Response) : Response :=
  { response with
    headers := set_header "X-Request-ID"
      (request_id_of inbound_request_id start_ms) response.headers }

/-- One Server-Sent Event yielded by the streaming generator: each
constructor is one of the five `yield f"event: ...\ndata: ...\n\n"` sites in
`generate_stream` (`routes.py` lines 155-197). The `error` payload
`json.dumps({'code': 'STREAM_ERROR', 'message': str(e)})` is modelled by
its two fields. -/
inductive SSEEvent where
  | start (payload : String)
  | chunk (payload : String)
  | sources (payload : String)
  | done (payload : String)
  | error (code : String) (message : String)
deriving DecidableEq

/-- The `mock_response` string of `generate_stream`
(`routes.py` lines 164-168); `request.message[:30]` is the first 30 code
points. -/
def mock_stream_response (message : String) : String :=
  "This is a mock streaming response. "
    ++ "Your message was: \x27" ++ py_take message 30 ++ "...\x27\n\n"
    ++ "The actual implementation will stream tokens from the LLM in real-time."

/-- The chunking loop `for i in range(0, len(mock_response), chunk_size)`
with `chunk = mock_response[i:i + chunk_size]` and `chunk_size = 10`
(`routes.py` lines 171-174), as structural recursion on a fuel argument
(any fuel at least the list length gives the loop's result). -/
def chunksAux : Nat → List Char → List (List Char)
  | _, [] => []
  | 0, cs => [cs]
  | fuel + 1, c :: rest => (c :: rest).take 10 :: chunksAux fuel ((c :: rest).drop 10)

/-- The successive `chunk` payloads of the streaming loop for text `s`. -/
def stream_chunks (s : String) : List String :=
  (chunksAux s.data.length s.data).map String.mk

/-- The event sequence yielded by `generate_stream` when no exception is
raised: `start`, the chunks in loop order, `sources` with payload
`json.dumps([]) = "[]"`, and `done` with payload `"[DONE]"`
(`routes.py` lines 157-184). -/
def generate_stream_success (trace_id message : String) : List SSEEvent :=
  [SSEEvent.start trace_id]
    ++ (stream_chunks (mock_stream_response message)).map SSEEvent.chunk
    ++ [SSEEvent.sources "[]"]
    ++ [SSEEvent.done "[DONE]"]

/-- The event sequence yielded by `generate_stream` (`routes.py`
lines 155-197). The `try` block's observable behaviour is the sequence of
its yields; an exception raised while executing the `try` block is modelled
by the pair `(k, emsg)`: the first `k` yields had already been produced
when the exception with message `emsg` was raised, after which the `except`
branch yields exactly one `error` event and the generator ends. `k` equal
to the number of success events models an exception raised after the
`done` yield, in the completion-logging call that is still inside the
`try` block (`routes.py` lines 186-189); `none` models a run with no
exception. -/
def generate_stream (trace_id message : String) :
    Option (Nat × String) → List SSEEvent
  | none => generate_stream_success trace_id message
  | some (k, emsg) =>
      (generate_stream_success trace_id message).take k
        ++ [SSEEvent.error "STREAM_ERROR" emsg]

/-- Payload of a `chunk` event. -/
def chunk_payload : SSEEvent → Option String
  | SSEEvent.chunk s => some s
  | _ => none

/-- Terminal events of the stream protocol: `done` and `error`. -/
def is_terminal_event : SSEEvent → Bool
  | SSEEvent.done _ => true
  | SSEEvent.error _ _ => true
  | _ => false

/-- Recognizer for `error` events. -/
def is_error_event : SSEEvent → Bool
  | SSEEvent.error _ _ => true
  | _ => false

/-- Holds when every `error` event in the list is its last element. -/
def error_only_last : List SSEEvent → Bool
  | [] => true
  | SSEEvent.error _ _ :: rest => rest.isEmpty
  | _ :: rest => error_only_last rest

/-- The event grammar stated by the spec for a successful stream: exactly
one `start` event first carrying the trace identifier, then zero or more
`chunk` events, then exactly one `sources` event whose payload is the JSON
encoding of the (empty) citation list, then exactly one `done` event with
the fixed sentinel payload, and nothing else. -/
def StartChunksSourcesDone (trace_id : String) (events : List SSEEvent) : Prop :=
  ∃ chunk_payloads : List String,
    events = [SSEEvent.start trace_id]
      ++ chunk_payloads.map SSEEvent.chunk
      ++ [SSEEvent.sources "[]"]
      ++ [SSEEvent.done "[DONE]"]

/-! Helper lemmas about the chunking loop and the event stream. -/

theorem chunksAux_flatten : ∀ (fuel : Nat) (cs : List Char), cs.length ≤ fuel →
    (chunksAux fuel cs).flatten = cs := by
  intro fuel
  induction fuel with
  | zero =>
    intro cs h
    have hnil : cs = [] := List.eq_nil_of_length_eq_zero (Nat.le_zero.mp h)
    subst hnil
    rfl
  | succ n ih =>
    intro cs h
    cases cs with
    | nil => rfl
    | cons c rest =>
      have hlen : ((c :: rest).drop 10).length ≤ n := by
        rw [List.length_drop]
        simp only [List.length_cons] at h ⊢
        omega
      show ((c :: rest).take 10 :: chunksAux n ((c :: rest).drop 10)).flatten = c :: rest
      rw [List.flatten_cons, ih _ hlen, List.take_append_drop]

theorem foldl_append_mk : ∀ (ls : List (List Char)) (acc : List Char),
    List.foldl (fun r s => r ++ s) (String.mk acc) (ls.map String.mk)
      = String.mk (acc ++ ls.flatten) := by
  intro ls
  induction ls with
  | nil => intro acc; simp
  | cons l t ih =>
    intro acc
    simp only [List.map_cons, List.foldl_cons]
    have hmk : String.mk acc ++ String.mk l = String.mk (acc ++ l) := rfl
    rw [hmk, ih, List.append_assoc, List.flatten_cons]

theorem join_map_mk (ls : List (List Char)) :
    String.join (ls.map String.mk) = String.mk ls.flatten :=
  calc String.join (ls.map String.mk)
      = List.foldl (fun r s => r ++ s) (String.mk []) (ls.map String.mk) := rfl
    _ = String.mk ([] ++ ls.flatten) := foldl_append_mk ls []
    _ = String.mk ls.flatten := by rw [List.nil_append]

theorem stream_chunks_join (s : String) : String.join (stream_chunks s) = s := by
  unfold stream_chunks
  rw [join_map_mk, chunksAux_flatten s.data.length s.data (Nat.le_refl _)]

theorem chunk_payloads_of_success (trace_id message : String) :
    (generate_stream_success trace_id message).filterMap chunk_payload
      = stream_chunks (mock_stream_response message) := by
  simp only [generate_stream_success]
  rw [List.filterMap_append, List.filterMap_append, List.filterMap_append,
    List.filterMap_map]
  have hcomp : (chunk_payload ∘ SSEEvent.chunk) = some := by
    funext x; rfl
  rw [hcomp]
  simp [chunk_payload]

/-- Claim C1: when the stream completes without an exception, the event
sequence of `generate_stream` is exactly one `start` event first, carrying
the trace identifier, then zero or more `chunk` events, then exactly one
`sources` event whose payload is the JSON-encoded (empty) citation list,
then exactly one `done` event with the fixed sentinel `[DONE]`, and no
other events. -/
theorem chat_stream_success_shape (trace_id message : String) :
    StartChunksSourcesDone trace_id (generate_stream trace_id message none) :=
  ⟨stream_chunks (mock_stream_response message), rfl⟩

/-- Claim C3: for a successful stream, the concatenation of the payloads of
all `chunk` events, in emission order, is exactly the generated response
text `mock_stream_response message`: the chunks partition the text left to
right with no gaps and no overlaps. -/
theorem chat_stream_chunks_reconstruct (trace_id message : String) :
    String.join ((generate_stream trace_id message none).filterMap chunk_payload)
      = mock_stream_response message := by
  show String.join ((generate_stream_success trace_id message).filterMap chunk_payload)
      = mock_stream_response message
  rw [chunk_payloads_of_success, stream_chunks_join]

theorem countP_terminal_front (trace_id : String) (m : List String) :
    List.countP is_terminal_event
      ([SSEEvent.start trace_id] ++ m.map SSEEvent.chunk ++ [SSEEvent.sources "[]"]) = 0 := by
  apply List.countP_eq_zero.mpr
  intro a ha
  simp only [List.mem_append, List.mem_singleton, List.mem_map] at ha
  rcases ha with (rfl | ⟨x, _, rfl⟩) | rfl <;> simp [is_terminal_event]

theorem any_error_success (trace_id message : String) :
    (generate_stream_success trace_id message).any is_error_event = false := by
  apply List.any_eq_false.mpr
  intro a ha
  simp only [generate_stream_success, List.mem_append, List.mem_singleton,
    List.mem_map] at ha
  rcases ha with ((rfl | ⟨x, _, rfl⟩) | rfl) | rfl <;> simp [is_error_event]

theorem any_false_of_sublist {p : SSEEvent → Bool} {l₁ l₂ : List SSEEvent}
    (h : List.Sublist l₁ l₂) (h2 : l₂.any p = false) : l₁.any p = false := by
  apply List.any_eq_false.mpr
  intro x hx
  exact List.any_eq_false.mp h2 x (h.subset hx)

theorem error_only_last_append (c msg : String) :
    ∀ (l : List SSEEvent), l.any is_error_event = false →
      error_only_last (l ++ [SSEEvent.error c msg]) = true := by
  intro l
  induction l with
  | nil => intro _; rfl
  | cons a t ih =>
    intro h
    rw [List.any_cons] at h
    have h1 := (Bool.or_eq_false_iff.mp h).1
    have h2 := (Bool.or_eq_false_iff.mp h).2
    cases a with
    | start p => exact ih h2
    | chunk p => exact ih h2
    | sources p => exact ih h2
    | done p => exact ih h2
    | error c2 m2 => simp [is_error_event] at h1

/-- Claim C2, amended: every stream produced by the streaming generator is
non-empty and ends with a terminal event (`done` on the exception-free run,
`error` on a run interrupted by an exception), and no event ever follows an
`error` event. When no exception occurs, or the exception occurs before the
`done` event was yielded, the stream contains exactly one terminal event.
The claim's stronger clause — that no event follows a `done` event under
any circumstance — is refuted by `chat_stream_done_then_error_cex`: the
completion-logging call sits inside the `try` block after the `done`
yield, so an exception raised there makes the `except` branch emit an
`error` event after `done`. -/
theorem chat_stream_terminal_events (trace_id message emsg : String) (k : Nat) :
    (generate_stream trace_id message none).getLast? = some (SSEEvent.done "[DONE]")
    ∧ (generate_stream trace_id message none).countP is_terminal_event = 1
    ∧ (generate_stream trace_id message (some (k, emsg))).getLast?
        = some (SSEEvent.error "STREAM_ERROR" emsg)
    ∧ error_only_last (generate_stream trace_id message (some (k, emsg))) = true
    ∧ (k < (generate_stream_success trace_id message).length →
        (generate_stream trace_id message (some (k, emsg))).countP is_terminal_event = 1) := by
  refine ⟨?_, ?_, ?_, ?_, ?_⟩
  · show (generate_stream_success trace_id message).getLast?
        = some (SSEEvent.done "[DONE]")
    simp only [generate_stream_success]
    exact List.getLast?_concat _
  · show (generate_stream_success trace_id message).countP is_terminal_event = 1
    simp only [generate_stream_success]
    rw [List.countP_append, countP_terminal_front]
    rfl
  · show ((generate_stream_success trace_id message).take k
        ++ [SSEEvent.error "STREAM_ERROR" emsg]).getLast?
        = some (SSEEvent.error "STREAM_ERROR" emsg)
    exact List.getLast?_concat _
  · show error_only_last ((generate_stream_success trace_id message).take k
        ++ [SSEEvent.error "STREAM_ERROR" emsg]) = true
    exact error_only_last_append _ _ _
      (any_false_of_sublist (List.take_sublist k _) (any_error_success trace_id message))
  · intro hk
    show ((generate_stream_success trace_id message).take k
        ++ [SSEEvent.error "STREAM_ERROR" emsg]).countP is_terminal_event = 1
    rw [List.countP_append]
    have hfront : List.countP is_terminal_event
        ((generate_stream_success trace_id message).take k) = 0 := by
      have hk2 : k ≤ ([SSEEvent.start trace_id]
          ++ (stream_chunks (mock_stream_response message)).map SSEEvent.chunk
          ++ [SSEEvent.sources "[]"]).length := by
        simp only [generate_stream_success, List.length_append,
          List.length_singleton] at hk
        simp only [List.length_append, List.length_singleton]
        omega
      have htake : (generate_stream_success trace_id message).take k
          = ([SSEEvent.start trace_id]
            ++ (stream_chunks (mock_stream_response message)).map SSEEvent.chunk
            ++ [SSEEvent.sources "[]"]).take k := by
        simp only [generate_stream_success]
        exact List.take_append_of_le_length hk2
      rw [htake]
      have hle := List.Sublist.countP_le is_terminal_event
        (List.take_sublist k ([SSEEvent.start trace_id]
          ++ (stream_chunks (mock_stream_response message)).map SSEEvent.chunk
          ++ [SSEEvent.sources "[]"]))
      rw [countP_terminal_front] at hle
      exact Nat.le_zero.mp hle
    rw [hfront]
    rfl

set_option maxRecDepth 8192

/-- Witness for `chat_stream_terminal_events`: with an exception raised
after 3 yields (strictly before the `done` event of the 17-event success
stream for message `hello`), the interrupted stream has exactly one
terminal event. -/
theorem chat_stream_terminal_events_witness :
    3 < (generate_stream_success "t" "hello").length
    ∧ (generate_stream "t" "hello" (some (3, "boom"))).countP is_terminal_event = 1 :=
  ⟨by decide, (chat_stream_terminal_events "t" "hello" "boom" 3).2.2.2.2 (by decide)⟩

/-- Counterexample to claim C2 as stated: the success stream for trace `t`
and message `hello` has 17 events with `done` at index 16; if an exception
is raised after all 17 yields — i.e. in the completion-logging call, which
is inside the `try` block after the `done` yield (`routes.py`
lines 184-189) — the `except` branch yields one more event, so an `error`
event follows the `done` event, contradicting "no further events are
emitted after a 'done' ... event under any circumstance". -/
theorem chat_stream_done_then_error_cex :
    (generate_stream "t" "hello" (some (17, "boom")))[16]? = some (SSEEvent.done "[DONE]")
    ∧ (generate_stream "t" "hello" (some (17, "boom")))[17]?
        = some (SSEEvent.error "STREAM_ERROR" "boom") := by
  constructor <;> decide

/-- Claim C4, amended: a request with no `x-api-key` header is rejected by
request validation with HTTP 422 (not 401) before the handler runs; a
present header value that does not start with `pk_` (including the empty
value) fails with 401 Unauthorized; a value starting with `pk_` succeeds
and returns the fixed mock tenant configuration. -/
theorem api_key_gate_spec (k : String) :
    api_key_dependency none = Except.error missing_field_error
    ∧ (py_startswith k "pk_" = false →
        api_key_dependency (some k)
          = Except.error { status_code := 401, detail := "Invalid API key" })
    ∧ (py_startswith k "pk_" = true →
        api_key_dependency (some k) = Except.ok mock_client_config) := by
  refine ⟨rfl, ?_, ?_⟩
  · intro h
    show validate_api_key k = _
    unfold validate_api_key
    rw [h]
    simp
  · intro h
    have hne : ¬(k = "") := by
      intro he
      subst he
      simp [py_startswith] at h
    show validate_api_key k = _
    unfold validate_api_key
    rw [h]
    simp [hne]

/-- Witness for `api_key_gate_spec` at the concrete keys `sk_123` (rejected
with 401) and `pk_123` (accepted with the mock configuration). -/
theorem api_key_gate_spec_witness :
    (py_startswith "sk_123" "pk_" = false
      ∧ api_key_dependency (some "sk_123")
          = Except.error { status_code := 401, detail := "Invalid API key" })
    ∧ (py_startswith "pk_123" "pk_" = true
      ∧ api_key_dependency (some "pk_123") = Except.ok mock_client_config) :=
  ⟨⟨by decide, (api_key_gate_spec "sk_123").2.1 (by decide)⟩,
   ⟨by decide, (api_key_gate_spec "pk_123").2.2 (by decide)⟩⟩

/-- Counterexample to claim C4 as stated: a request with the `x-api-key`
header absent is rejected with status 422 (the header is a required
FastAPI parameter, so request validation rejects it), not with the
Unauthorized status 401 the claim asserts. -/
theorem api_key_missing_header_cex :
    status_of (api_key_dependency none) = some 422
    ∧ ¬ status_of (api_key_dependency none) = some 401 := by
  refine ⟨rfl, ?_⟩
  decide

/-- Claim C5: on its (always taken) success path, the non-streaming chat
handler returns a `ChatResponse` echoing the request's `session_id`, with
an empty source list, and with the freshly generated trace identifier
(a 36-character `str(uuid.uuid4())` value, hence non-empty). -/
theorem chat_response_spec (message session_id : String) (client_config : ClientConfig)
    (trace_id : String) (h : trace_id.length = 36) :
    (chat message session_id client_config trace_id).session_id = session_id
    ∧ (chat message session_id client_config trace_id).sources = some []
    ∧ (chat message session_id client_config trace_id).trace_id = trace_id
    ∧ (chat message session_id client_config trace_id).trace_id ≠ "" := by
  refine ⟨rfl, rfl, rfl, ?_⟩
  intro he
  have he2 : trace_id = "" := he
  rw [he2] at h
  exact absurd h (by decide)

/-- Witness for `chat_response_spec` at the concrete request of the spec's
scenario, with a concrete 36-character trace identifier. -/
theorem chat_response_spec_witness :
    ("f47ac10b-58cc-4372-a567-0e02b2c3d479" : String).length = 36
    ∧ ((chat "hello" "123e4567-e89b-12d3-a456-426614174000" mock_client_config
          "f47ac10b-58cc-4372-a567-0e02b2c3d479").session_id
        = "123e4567-e89b-12d3-a456-426614174000"
      ∧ (chat "hello" "123e4567-e89b-12d3-a456-426614174000" mock_client_config
          "f47ac10b-58cc-4372-a567-0e02b2c3d479").sources = some []
      ∧ (chat "hello" "123e4567-e89b-12d3-a456-426614174000" mock_client_config
          "f47ac10b-58cc-4372-a567-0e02b2c3d479").trace_id
        = "f47ac10b-58cc-4372-a567-0e02b2c3d479"
      ∧ (chat "hello" "123e4567-e89b-12d3-a456-426614174000" mock_client_config
          "f47ac10b-58cc-4372-a567-0e02b2c3d479").trace_id ≠ "") :=
  ⟨by decide,
   chat_response_spec "hello" "123e4567-e89b-12d3-a456-426614174000" mock_client_config
     "f47ac10b-58cc-4372-a567-0e02b2c3d479" (by decide)⟩

theorem get_header_set_header (name value : String) (headers : List (String × String)) :
    get_header name (set_header name value headers) = some value := by
  unfold get_header set_header
  induction headers with
  | nil => simp [List.find?]
  | cons h t ih =>
    rw [List.filter_cons]
    cases hc : (h.1 == name) with
    | true => simp [hc]
    | false => simp [hc, List.find?_cons]

/-- Claim C6, amended: every response passing through the logging
middleware carries an `X-Request-ID` header whose value is the inbound
`X-Request-ID` value when the inbound request supplied one (hence non-empty
exactly when that inbound value is non-empty), and otherwise the generated
time-derived identifier `req_<start-ms>`, which is always non-empty. -/
theorem request_id_header_spec (inbound : Option String) (start_ms : Nat)
    (response : Response) :
    get_header "X-Request-ID" (log_requests inbound start_ms response).headers
      = some (request_id_of inbound start_ms)
    ∧ (∀ v, inbound = some v → request_id_of inbound start_ms = v)
    ∧ (inbound = none → request_id_of inbound start_ms ≠ "") := by
  refine ⟨get_header_set_header _ _ _, ?_, ?_⟩
  · intro v hv
    subst hv
    rfl
  · intro hv
    subst hv
    show ("req_" ++ toString start_ms) ≠ ""
    intro he
    have hlen := congrArg String.length he
    rw [String.length_append] at hlen
    have h4 : ("req_" : String).length = 4 := rfl
    have h0 : ("" : String).length = 0 := rfl
    rw [h4, h0] at hlen
    omega

/-- Witness for `request_id_header_spec`: with inbound header `abc` the
response echoes `abc`; with no inbound header the generated identifier is
non-empty. -/
theorem request_id_header_spec_witness :
    get_header "X-Request-ID"
        (log_requests (some "abc") 5 { status_code := 200, headers := [] }).headers
      = some (request_id_of (some "abc") 5)
    ∧ request_id_of (some "abc") 5 = "abc"
    ∧ request_id_of none 5 ≠ "" :=
  ⟨(request_id_header_spec (some "abc") 5 { status_code := 200, headers := [] }).1,
   (request_id_header_spec (some "abc") 5 { status_code := 200, headers := [] }).2.1 "abc" rfl,
   (request_id_header_spec none 5 { status_code := 200, headers := [] }).2.2 rfl⟩

/-- Counterexample to claim C6 as stated: when the inbound request supplies
an `X-Request-ID` header whose value is the empty string,
`request.headers.get` returns that empty value and the middleware echoes
it, so the response's `X-Request-ID` header is empty — contradicting the
claim that the response header is always non-empty while also equal to any
supplied inbound value. -/
theorem request_id_empty_header_cex :
    get_header "X-Request-ID"
      (log_requests (some "") 0 { status_code := 200, headers := [] }).headers
      = some "" := by
  decide

/-- Claim C7: pydantic accepts a `ChatRequest` body exactly when `message`
is present with length between 1 and 2000 characters and `session_id` is
present, 36 characters long, and made only of lowercase hex digits and
hyphens; all other bodies (missing fields, empty or overlong message,
pattern mismatch) are rejected before any handler logic runs. -/
theorem chat_request_validation (message session_id : Option String) :
    chat_request_valid message session_id = true ↔
      ∃ m s, message = some m ∧ session_id = some s
        ∧ 1 ≤ m.length ∧ m.length ≤ 2000
        ∧ s.length = 36
        ∧ ∀ c ∈ s.data, ('a' ≤ c ∧ c ≤ 'f') ∨ ('0' ≤ c ∧ c ≤ '9') ∨ c = '-' := by
  cases message with
  | none => simp [chat_request_valid]
  | some m =>
    cases session_id with
    | none => simp [chat_request_valid]
    | some s =>
      simp only [chat_request_valid, session_id_matches, is_session_id_char,
        Bool.and_eq_true, Bool.or_eq_true, decide_eq_true_eq, beq_iff_eq,
        List.all_eq_true, Option.some.injEq]
      constructor
      · rintro ⟨⟨h1, h2⟩, h3, h4⟩
        refine ⟨m, s, rfl, rfl, h1, h2, h3, ?_⟩
        intro c hc
        rcases h4 c hc with (h | h) | h
        · exact Or.inl h
        · exact Or.inr (Or.inl h)
        · exact Or.inr (Or.inr h)
      · rintro ⟨m2, s2, rfl, rfl, h1, h2, h3, h4⟩
        refine ⟨⟨h1, h2⟩, h3, ?_⟩
        intro c hc
        rcases h4 c hc with h | h | h
        · exact Or.inl (Or.inl h)
        · exact Or.inl (Or.inr h)
        · exact Or.inr h

/-- Claim C8: the internal-secret dependency succeeds exactly when the
`X-Internal-Secret` header equals the configured
`settings.internal_api_secret`; any mismatch, including a missing header
(the header is optional, so absence reaches the check as `None`), raises
401 Unauthorized before the handler body runs. -/
theorem internal_secret_spec (x_internal_secret : Option String)
    (internal_api_secret : String) :
    (validate_internal_secret x_internal_secret internal_api_secret = Except.ok true
      ↔ x_internal_secret = some internal_api_secret)
    ∧ (x_internal_secret ≠ some internal_api_secret →
        validate_internal_secret x_internal_secret internal_api_secret
          = Except.error { status_code := 401, detail := "Invalid internal secret" }) := by
  constructor
  · constructor
    · intro h
      by_contra hne
      unfold validate_internal_secret at h
      rw [if_pos hne] at h
      exact Except.noConfusion h
    · intro h
      unfold validate_internal_secret
      rw [if_neg (fun hn => hn h)]
  · intro h
    unfold validate_internal_secret
    rw [if_pos h]

/-- Witness for `internal_secret_spec`: a missing header is rejected with
401 against the default configured secret, and the exact secret is
accepted. -/
theorem internal_secret_spec_witness :
    ((none : Option String) ≠ some "internal-secret"
      ∧ validate_internal_secret none "internal-secret"
          = Except.error { status_code := 401, detail := "Invalid internal secret" })
    ∧ validate_internal_secret (some "internal-secret") "internal-secret"
        = Except.ok true :=
  ⟨⟨by decide, (internal_secret_spec none "internal-secret").2 (by decide)⟩,
   (internal_secret_spec (some "internal-secret") "internal-secret").1.mpr rfl⟩

/-- Claim C9: the document-status handler returns the same fabricated
snapshot for every document identifier — it echoes the identifier and
always reports status `completed`, progress 100, 10 total chunks and 10
processed chunks; changing only the echoed identifier yields the response
for any other identifier. -/
theorem document_status_spec (a b : String) :
    (get_document_status a).document_id = a
    ∧ (get_document_status a).status = DocStatus.completed
    ∧ (get_document_status a).progress = 100
    ∧ (get_document_status a).chunks_total = some 10
    ∧ (get_document_status a).chunks_processed = some 10
    ∧ { get_document_status a with document_id := b } = get_document_status b :=
  ⟨rfl, rfl, rfl, rfl, rfl, rfl⟩

/-- Claim C10, amended: a request with the `api_key` query parameter absent
is rejected by request validation with 422 before the handler runs (still
not an Unauthorized error); a present `api_key` that is empty or does not
start with `pk_` makes the handler return a normal 200 body with `valid`
false and an error message; a `pk_`-prefixed value returns `valid` true
with the fixed mock client fields. -/
theorem validate_client_spec (api_key : String) :
    validate_client_endpoint none = Except.error missing_field_error
    ∧ (py_startswith api_key "pk_" = false →
        validate_client_endpoint (some api_key)
          = Except.ok
              { valid := false
              , error_message := some "Invalid API key format"
              , client_id := none, tier := none, model := none
              , allowed_domains := none })
    ∧ (py_startswith api_key "pk_" = true →
        validate_client_endpoint (some api_key)
          = Except.ok
              { valid := true
              , error_message := none
              , client_id := some "mock_client_123"
              , tier := some "free"
              , model := some "gpt-4o-mini"
              , allowed_domains := some ["*"] }) := by
  refine ⟨rfl, ?_, ?_⟩
  · intro h
    show Except.ok (validate_client api_key) = _
    unfold validate_client
    rw [h]
    simp
  · intro h
    have hne : ¬(api_key = "") := by
      intro he
      subst he
      simp [py_startswith] at h
    show Except.ok (validate_client api_key) = _
    unfold validate_client
    rw [h]
    simp [hne]

/-- Witness for `validate_client_spec` at the concrete keys `sk_abc`
(valid false, with error message) and `pk_abc` (valid true, mock fields). -/
theorem validate_client_spec_witness :
    (py_startswith "sk_abc" "pk_" = false
      ∧ validate_client_endpoint (some "sk_abc")
          = Except.ok
              { valid := false
              , error_message := some "Invalid API key format"
              , client_id := none, tier := none, model := none
              , allowed_domains := none })
    ∧ (py_startswith "pk_abc" "pk_" = true
      ∧ validate_client_endpoint (some "pk_abc")
          = Except.ok
              { valid := true
              , error_message := none
              , client_id := some "mock_client_123"
              , tier := some "free"
              , model := some "gpt-4o-mini"
              , allowed_domains := some ["*"] }) :=
  ⟨⟨by decide, (validate_client_spec "sk_abc").2.1 (by decide)⟩,
   ⟨by decide, (validate_client_spec "pk_abc").2.2 (by decide)⟩⟩

/-- Counterexample to claim C10 as stated: with the `api_key` query
parameter absent (`none`), the endpoint result is a 422 validation
rejection, not the normal 200 response with `valid` false that the claim
asserts for a missing `api_key` — the handler body never runs. -/
theorem validate_client_missing_cex :
    validate_client_endpoint none = Except.error missing_field_error
    ∧ status_of (validate_client_endpoint none) = some 422
    ∧ (validate_client_endpoint none).isOk = false :=
  ⟨rfl, rfl, rfl⟩

end ChatConnect
